import Mathlib

/-!
Shallow embedding of docs/xhive/analysis_diagram.py, a Sphinx extension that
renders eHive pipeconfig snippets as analysis diagrams.

Modelling choices:
  * The filesystem is an association list from path strings to file contents.
  * The two module-level globals (json_filename, pipeconfig_filename), the
    filesystem, and observation logs (spawned subprocesses, the stderr stream
    of the build process) form a BuildState threaded through every operation.
  * tempfile.NamedTemporaryFile returns a fresh path in the _build directory;
    freshness is modelled with a counter, and the json and pipeconfig name
    families are kept textually disjoint, as fresh temp names are.
  * The Python 2 print statement (print to fh) appends the printed string plus
    a newline to the freshly created or truncated file.
  * subprocess.check_output with stderr redirected to sys.stderr runs the
    process, passes its stderr text through to the stderr stream of the build
    process, returns captured stdout on exit status zero, and otherwise raises
    CalledProcessError carrying the exit status and captured stdout; the
    exception carries no captured stderr (field none).
  * os.environ lookup of EHIVE_ROOT_DIR is a parameter of type Option String;
    a missing variable raises KeyError.
-/

namespace AnalysisDiagram

/-- Filesystem: association list of (path, content); fsWrite shadows. -/
abbrev FS := List (String × String)

/-- Content of the file at a path, if it exists. -/
def fsRead (fs : FS) (p : String) : Option String :=
  (fs.find? (fun e => e.1 == p)).map (fun e => e.2)

/-- Whether a file exists at the path. -/
def fsExists (fs : FS) (p : String) : Bool :=
  (fsRead fs p).isSome

/-- Write (create or fully replace) the file at a path. -/
def fsWrite (fs : FS) (p c : String) : FS :=
  (p, c) :: fs.filter (fun e => !(e.1 == p))

/-- Semantics of os.remove: delete the file, or fail when it does not exist. -/
def fsRemove (fs : FS) (p : String) : Option FS :=
  if fsExists fs p then some (fs.filter (fun e => !(e.1 == p))) else none

/-- Result of running an external process: exit status, stdout and stderr. -/
structure ProcResult where
  returncode : Int
  stdout : String
  stderrText : String
deriving Repr, DecidableEq

/-- An external-process semantics: maps the argument vector and the current
filesystem to a process result. subprocess itself is outside this module. -/
abbrev Executor := List String → FS → ProcResult

/-- Python exceptions that the module can raise. -/
inductive PyError where
  | keyError (key : String)
  | calledProcessError (returncode : Int) (output : String) (stderr : Option String)
  | fileNotFoundError (path : String)
deriving Repr, DecidableEq

/-- Process-wide state: the two path globals of the module, the filesystem,
the temp-name counter, counters of temp-file creations, the log of spawned
subprocess argument vectors, and the stderr stream of the build process. -/
structure BuildState where
  json_filename : Option String
  pipeconfig_filename : Option String
  fs : FS
  tmpCounter : Nat
  json_files_created : Nat
  pipeconfig_files_created : Nat
  spawned : List (List String)
  stderrStream : String
deriving Repr, DecidableEq

/-- State at interpreter start: both globals None, nothing created. -/
def initState : BuildState :=
  { json_filename := none, pipeconfig_filename := none, fs := [],
    tmpCounter := 0, json_files_created := 0, pipeconfig_files_created := 0,
    spawned := [], stderrStream := "" }

/-- Fresh temp path for the JSON options file (dir = _build, no suffix). -/
def jsonTmpName (n : Nat) : String :=
  "_build/tmpj" ++ toString n

/-- Fresh temp path for the pipeconfig file (dir = _build, suffix .pm). -/
def pipeconfigTmpName (n : Nat) : String :=
  "_build/tmpp" ++ toString n ++ ".pm"

/-- Semantics of os.path.basename: the longest suffix without a slash. -/
def basename (p : String) : String :=
  String.mk ((p.data.reverse.takeWhile (fun c => ¬ c = '/')).reverse)

/-- Semantics of os.path.join on two components: an absolute second component
wins; otherwise a separator is inserted unless one is already present. -/
def ospath_join (a b : String) : String :=
  if b.data.head? = some '/' then b
  else if a = "" ∨ a.data.getLast? = some '/' then a ++ b
  else a ++ "/" ++ b

/-- Template from lines 59-76 of the source, with the two percent-s slots as
arguments (package name, pipeconfig content). -/
def pipeconfig_template (package_name content : String) : String :=
  "\npackage " ++ package_name ++
  ";\n\nuse strict;\nuse warnings;\n\nuse Bio::EnsEMBL::Hive::PipeConfig::HiveGeneric_conf;  # For INPUT_PLUS, WHEN and ELSE\nuse base (\x27Bio::EnsEMBL::Hive::PipeConfig::HiveGeneric_conf\x27);\n\nsub pipeline_analyses \x7b\n    my ($self) = @_;\n    my $all_analyses = [" ++
  content ++
  "];\n    map \x7b$_->\x7b-module\x7d = \x27Bio::EnsEMBL::Hive::RunnableDB::Dummy\x27\x7d @$all_analyses;\n    return $all_analyses;\n\x7d\n\n1;\n"

/-- JSON values (the fragment needed for the display-options payload). -/
inductive Json where
  | num (n : Int) : Json
  | str (s : String) : Json
  | obj (fields : List (String × Json)) : Json
deriving Repr

/-- Display-options payload built at lines 78-85 of the source: a dict with
one key Graph whose value holds the four display flags, all zero. -/
def display_config : Json :=
  .obj [("Graph", .obj [("Pad", .num 0), ("DisplayStats", .num 0),
                        ("DisplayDBIDs", .num 0), ("DisplayDetails", .num 0)])]

/-- Serialized form of the payload, as json.dumps renders it (source line 78);
the theorem loads_display_config_json certifies it parses back to
display_config. -/
def display_config_json : String :=
  "\x7b\"Graph\": \x7b\"Pad\": 0, \"DisplayStats\": 0, \"DisplayDBIDs\": 0, \"DisplayDetails\": 0\x7d\x7d"

/-- Step at lines 94-100: when json_filename is None, create the temp file,
print the JSON payload into it (print adds a newline) and record its path. -/
def ensure_json_file (s : BuildState) : BuildState :=
  match s.json_filename with
  | some _ => s
  | none =>
    let name := jsonTmpName s.tmpCounter
    { s with fs := fsWrite s.fs name (display_config_json ++ "\n"),
             tmpCounter := s.tmpCounter + 1,
             json_files_created := s.json_files_created + 1,
             json_filename := some name }

/-- Step at lines 106-111: when pipeconfig_filename is None, create a fresh
temp file with suffix .pm and record its path; otherwise reopen the recorded
path with mode w, which truncates the file to empty. -/
def ensure_pipeconfig_file (s : BuildState) : String × BuildState :=
  match s.pipeconfig_filename with
  | none =>
    let name := pipeconfigTmpName s.tmpCounter
    (name, { s with fs := fsWrite s.fs name "",
                    tmpCounter := s.tmpCounter + 1,
                    pipeconfig_files_created := s.pipeconfig_files_created + 1,
                    pipeconfig_filename := some name })
  | some name => (name, { s with fs := fsWrite s.fs name "" })

/-- Package name derivation at line 113: basename of the temp path with the
last three characters (the .pm suffix) dropped, behind the _build:: prefix. -/
def package_name_of (p : String) : String :=
  "_build::" ++ String.mk ((basename p).data.take ((basename p).data.length - 3))

/-- Function generate_dot_diagram, lines 91-122 of the source. The Executor
and the EHIVE_ROOT_DIR value are parameters; the result is the returned dot
string or the raised exception, together with the successor state. -/
def generate_dot_diagram (exec : Executor) (ehive_root_dir : Option String)
    (pipeconfig_content : String) (s : BuildState) :
    Except PyError String × BuildState :=
  let s1 := ensure_json_file s
  match ehive_root_dir with
  | none => (.error (.keyError "EHIVE_ROOT_DIR"), s1)
  | some root =>
    let default_config_file := root ++ "/" ++ "hive_config.json"
    let pc := ensure_pipeconfig_file s1
    let pname := pc.1
    let s2 := pc.2
    let package_name := package_name_of pname
    let s3 := { s2 with
      fs := fsWrite s2.fs pname
        (pipeconfig_template package_name pipeconfig_content ++ "\n") }
    let graph_path := ospath_join (ospath_join root "scripts") "generate_graph.pl"
    let cmd := [graph_path, "-pipeconfig", pname, "--format", "dot",
                "-config_file", default_config_file,
                "-config_file", s3.json_filename.getD ""]
    let r := exec cmd s3.fs
    let s4 := { s3 with spawned := s3.spawned ++ [cmd],
                        stderrStream := s3.stderrStream ++ r.stderrText }
    let result := if r.returncode = 0 then Except.ok r.stdout
                  else Except.error (PyError.calledProcessError r.returncode r.stdout none)
    (result, s4)

/-- Function cleanup_tmp_files, lines 125-129: remove each temp file whose
path global is set; os.remove on a missing file raises, and the exception
propagates out of the hook (there is no try/except in the source). Neither
global is reset. -/
def cleanup_tmp_files (s : BuildState) : Except PyError Unit × BuildState :=
  match s.json_filename with
  | none =>
    match s.pipeconfig_filename with
    | none => (.ok (), s)
    | some q =>
      match fsRemove s.fs q with
      | none => (.error (.fileNotFoundError q), s)
      | some fs2 => (.ok (), { s with fs := fs2 })
  | some p =>
    match fsRemove s.fs p with
    | none => (.error (.fileNotFoundError p), s)
    | some fs1 =>
      match s.pipeconfig_filename with
      | none => (.ok (), { s with fs := fs1 })
      | some q =>
        match fsRemove fs1 q with
        | none => (.error (.fileNotFoundError q), { s with fs := fs1 })
        | some fs2 => (.ok (), { s with fs := fs2 })

/-- Graphviz node built by the directive (code string plus empty options). -/
structure GraphvizNode where
  code : String
  options : List (String × String)
deriving Repr, DecidableEq

/-- Table node built by the directive: literal code block cell on the left,
graphviz node cell on the right. -/
structure TableNode where
  code_cell : String
  graph_cell : GraphvizNode
deriving Repr, DecidableEq

/-- Method HiveDiagramDirective.run, lines 43-56: join the content lines,
generate the dot diagram (any exception propagates, and then no table node is
built), and return the one-row two-cell table node. -/
def HiveDiagramDirective.run (exec : Executor) (ehive_root_dir : Option String)
    (content : List String) (s : BuildState) :
    Except PyError (List TableNode) × BuildState :=
  let text := String.intercalate "\n" content
  match generate_dot_diagram exec ehive_root_dir text s with
  | (.ok dot, s2) =>
    (.ok [{ code_cell := text, graph_cell := { code := dot, options := [] } }], s2)
  | (.error e, s2) => (.error e, s2)

/-- Whitespace skipping for the JSON reader. -/
def skipWs : List Char → List Char
  | [] => []
  | c :: cs => if c = ' ' ∨ c = '\n' ∨ c = '\t' ∨ c = '\r' then skipWs cs else c :: cs

/-- Read the characters of a JSON string up to the closing quote. -/
def readStrChars : List Char → Option (List Char × List Char)
  | [] => none
  | c :: cs =>
    if c = '"' then some ([], cs)
    else
      match readStrChars cs with
      | some (acc, rest) => some (c :: acc, rest)
      | none => none

/-- Split a leading run of decimal digits from the input. -/
def readDigits : List Char → List Char × List Char
  | [] => ([], [])
  | c :: cs =>
    if c.isDigit then
      let dr := readDigits cs
      (c :: dr.1, dr.2)
    else ([], c :: cs)

/-- Numeric value of a digit run. -/
def digitsToNat (ds : List Char) : Nat :=
  ds.foldl (fun acc c => 10 * acc + (c.toNat - 48)) 0

mutual

/-- Read one JSON value (object, string or integer) from the input. -/
def readValue : Nat → List Char → Option (Json × List Char)
  | 0, _ => none
  | fuel + 1, s =>
    match skipWs s with
    | '\x7b' :: cs =>
      (match skipWs cs with
       | '\x7d' :: rest => some (.obj [], rest)
       | cs2 =>
         match readFields fuel cs2 with
         | some (fields, rest) => some (.obj fields, rest)
         | none => none)
    | '"' :: cs =>
      (match readStrChars cs with
       | some (acc, rest) => some (.str (String.mk acc), rest)
       | none => none)
    | '-' :: cs =>
      (match readDigits cs with
       | ([], _) => none
       | (ds, rest) => some (.num (-(Int.ofNat (digitsToNat ds))), rest))
    | c :: cs =>
      if c.isDigit then
        match readDigits (c :: cs) with
        | (ds, rest) => some (.num (Int.ofNat (digitsToNat ds)), rest)
      else none
    | [] => none

/-- Read the key-value members of a JSON object up to the closing brace. -/
def readFields : Nat → List Char → Option (List (String × Json) × List Char)
  | 0, _ => none
  | fuel + 1, s =>
    match skipWs s with
    | '"' :: cs =>
      (match readStrChars cs with
       | none => none
       | some (key, rest) =>
         match skipWs rest with
         | ':' :: rest2 =>
           (match readValue fuel rest2 with
            | none => none
            | some (v, rest3) =>
              match skipWs rest3 with
              | ',' :: rest4 =>
                (match readFields fuel rest4 with
                 | some (fields, rest5) =>
                   some ((String.mk key, v) :: fields, rest5)
                 | none => none)
              | '\x7d' :: rest4 => some ([(String.mk key, v)], rest4)
              | _ => none)
         | _ => none)
    | _ => none

end

/-- Semantics of json.loads on the fragment of JSON used here: parse one
value and require only whitespace to follow. -/
def loads (s : String) : Option Json :=
  match readValue (s.length + 1) s.toList with
  | some (v, rest) => if skipWs rest = [] then some v else none
  | none => none

/-! Basic lemmas about the filesystem model. -/

theorem find?_filter_other (fs : FS) (p q : String) (h : ¬ p = q) :
    (fs.filter (fun e => !(e.1 == q))).find? (fun e => e.1 == p) =
      fs.find? (fun e => e.1 == p) := by
  have hqp : (q == p) = false := by
    simp only [beq_eq_false_iff_ne, ne_eq]
    intro hqp2
    exact h hqp2.symm
  have hpq : (p == q) = false := by
    simp only [beq_eq_false_iff_ne, ne_eq]
    exact h
  induction fs with
  | nil => rfl
  | cons e t ih =>
    by_cases hq : e.1 = q
    · simp [List.filter_cons, hq, List.find?_cons, hqp, ih]
    · by_cases hp : e.1 = p
      · simp [List.filter_cons, hq, List.find?_cons, hp, hpq]
      · simp [List.filter_cons, hq, List.find?_cons, hp, ih]

theorem find?_filter_self (fs : FS) (p : String) :
    (fs.filter (fun e => !(e.1 == p))).find? (fun e => e.1 == p) = none := by
  induction fs with
  | nil => rfl
  | cons e t ih =>
    by_cases hp : e.1 = p
    · simp [List.filter_cons, hp, ih]
    · simp [List.filter_cons, hp, List.find?_cons, ih]

theorem fsRead_fsWrite_self (fs : FS) (p c : String) :
    fsRead (fsWrite fs p c) p = some c := by
  simp [fsRead, fsWrite, List.find?_cons]

theorem fsRead_fsWrite_other (fs : FS) (p q c : String) (h : ¬ p = q) :
    fsRead (fsWrite fs q c) p = fsRead fs p := by
  have hq : (q == p) = false := by
    simp only [beq_eq_false_iff_ne, ne_eq]
    intro hqp
    exact h hqp.symm
  simp [fsRead, fsWrite, List.find?_cons, hq, find?_filter_other fs p q h]

theorem fsRead_fsRemove_self (fs fs2 : FS) (p : String)
    (h : fsRemove fs p = some fs2) : fsRead fs2 p = none := by
  unfold fsRemove at h
  by_cases he : fsExists fs p
  · simp [he] at h
    subst h
    simp [fsRead, find?_filter_self]
  · simp [he] at h

theorem fsRead_fsRemove_other (fs fs2 : FS) (p q : String)
    (h : fsRemove fs q = some fs2) (hpq : ¬ p = q) : fsRead fs2 p = fsRead fs p := by
  unfold fsRemove at h
  by_cases he : fsExists fs q
  · simp [he] at h
    subst h
    simp [fsRead, find?_filter_other fs p q hpq]
  · simp [he] at h

theorem fsRemove_isSome_of_exists (fs : FS) (p : String) (h : fsExists fs p = true) :
    ∃ fs2, fsRemove fs p = some fs2 := by
  unfold fsRemove
  simp [h]

theorem fsRemove_eq_none_of_not_exists (fs : FS) (p : String)
    (h : fsExists fs p = false) : fsRemove fs p = none := by
  unfold fsRemove
  simp [h]

/-! Lemmas about the temp-file name families. -/

theorem jsonTmpName_ne_pipeconfigTmpName (n m : Nat) :
    jsonTmpName n ≠ pipeconfigTmpName m := by
  intro h
  have h2 := congrArg String.data h
  simp only [jsonTmpName, pipeconfigTmpName, String.data_append] at h2
  rw [List.append_assoc] at h2
  have h3 := (List.append_inj h2 (by decide)).1
  exact absurd h3 (by decide)

/-- Paths produced by os.path.join are at least as long as their last
component; used to separate the executable path from flag strings. -/
theorem ospath_join_length (a b : String) : b.length ≤ (ospath_join a b).length := by
  unfold ospath_join
  split
  · exact Nat.le_refl _
  · split
    · simp [String.length_append]
    · simp [String.length_append]

theorem graph_path_ne_flag (root : String) :
    ¬ ospath_join (ospath_join root "scripts") "generate_graph.pl" = "-pipeconfig" := by
  intro h
  have h1 := ospath_join_length (ospath_join root "scripts") "generate_graph.pl"
  rw [h] at h1
  exact absurd h1 (by decide)

/-! Stub executors and concrete states used by witnesses and counterexamples. -/

/-- Stub executor that always succeeds with empty output. -/
def okExec : Executor := fun _ _ => { returncode := 0, stdout := "", stderrText := "" }

/-- State after one successful generate_dot_diagram call at interpreter start. -/
def oneCallState : BuildState :=
  (generate_dot_diagram okExec (some "/ehive") "X" initState).2

/-! Facts about the cleanup hook. -/

/-- Cleanup never resets the two path globals (lines 125-129 assign nothing). -/
theorem cleanup_preserves_slots (s : BuildState) :
    (cleanup_tmp_files s).2.json_filename = s.json_filename ∧
    (cleanup_tmp_files s).2.pipeconfig_filename = s.pipeconfig_filename := by
  unfold cleanup_tmp_files
  cases hj : s.json_filename with
  | none =>
    cases hq : s.pipeconfig_filename with
    | none => simp [hj, hq]
    | some q =>
      cases hrem : fsRemove s.fs q with
      | none => simp [hj, hq, hrem]
      | some fs2 => simp [hj, hq, hrem]
  | some p =>
    cases hrem : fsRemove s.fs p with
    | none => simp [hj, hrem]
    | some fs1 =>
      cases hq : s.pipeconfig_filename with
      | none => simp [hj, hq, hrem]
      | some q =>
        cases hrem2 : fsRemove fs1 q with
        | none => simp [hj, hq, hrem, hrem2]
        | some fs2 => simp [hj, hq, hrem, hrem2]

/-- Cleanup on a state whose options path is recorded but absent from disk
raises the os.remove failure. -/
theorem cleanup_json_missing (s : BuildState) (p : String)
    (hj : s.json_filename = some p) (hgone : fsExists s.fs p = false) :
    (cleanup_tmp_files s).1 = .error (.fileNotFoundError p) := by
  simp only [cleanup_tmp_files, hj]
  rw [fsRemove_eq_none_of_not_exists s.fs p hgone]

/-- After a successful cleanup run, the recorded options path is gone. -/
theorem cleanup_ok_removes (s : BuildState) (p : String)
    (hj : s.json_filename = some p) (h1 : (cleanup_tmp_files s).1 = .ok ()) :
    fsExists (cleanup_tmp_files s).2.fs p = false := by
  simp only [cleanup_tmp_files, hj] at h1 ⊢
  cases hrem : fsRemove s.fs p with
  | none => simp [hrem] at h1
  | some fs1 =>
    cases hq : s.pipeconfig_filename with
    | none =>
      simp [fsExists, hrem, hq, fsRead_fsRemove_self s.fs fs1 p hrem]
    | some q =>
      cases hrem2 : fsRemove fs1 q with
      | none => simp [hrem, hq, hrem2] at h1
      | some fs2 =>
        have hnone : fsRead fs2 p = none := by
          by_cases hpq : p = q
          · exact hpq ▸ fsRead_fsRemove_self fs1 fs2 q hrem2
          · rw [fsRead_fsRemove_other fs1 fs2 p q hrem2 hpq]
            exact fsRead_fsRemove_self s.fs fs1 p hrem
        simp [fsExists, hrem, hq, hrem2, hnone]

/-! Claim C1. -/

/-- Claim C1, counterexample: starting from the state reached by one
successful generate call, the first cleanup run succeeds and removes both
temp files from disk, yet the second cleanup run raises a file-not-found
error, because os.remove is called on the recorded path unguarded. -/
theorem C1_counterexample :
    (cleanup_tmp_files oneCallState).1 = .ok () ∧
    fsExists (cleanup_tmp_files oneCallState).2.fs "_build/tmpj0" = false ∧
    fsExists (cleanup_tmp_files oneCallState).2.fs "_build/tmpp1.pm" = false ∧
    (cleanup_tmp_files (cleanup_tmp_files oneCallState).2).1 =
      .error (.fileNotFoundError "_build/tmpj0") :=
  ⟨rfl, rfl, rfl, rfl⟩

/-- Claim C1 (amended): in every build-process state whose options-path global
is set and whose cleanup already ran once successfully, invoking the cleanup
hook a second time raises a file-not-found error on the options path; removal
failures inside the hook propagate past the hook, since the source guards
only against never-created files, not against already-removed ones. -/
theorem cleanup_second_run_raises (s : BuildState) (p : String)
    (hj : s.json_filename = some p) (h1 : (cleanup_tmp_files s).1 = .ok ()) :
    (cleanup_tmp_files (cleanup_tmp_files s).2).1 =
      .error (.fileNotFoundError p) :=
  cleanup_json_missing (cleanup_tmp_files s).2 p
    ((cleanup_preserves_slots s).1.trans hj)
    (cleanup_ok_removes s p hj h1)

/-- Claim C1, witness for the amended theorem at a concrete state. -/
theorem C1_witness :
    (cleanup_tmp_files (cleanup_tmp_files oneCallState).2).1 =
      .error (.fileNotFoundError "_build/tmpj0") :=
  cleanup_second_run_raises oneCallState "_build/tmpj0" (by rfl) (by rfl)

/-! Claim C2. -/

/-- Claim C2: for every process state, every executor and every block content,
when EHIVE_ROOT_DIR is unset, generate_dot_diagram raises KeyError for that
variable and no subprocess is spawned by the call (the spawn log is unchanged,
and in particular the environment lookup on line 103 precedes the
subprocess invocation on line 120). -/
theorem generate_env_unset_fails_before_spawn (exec : Executor)
    (content : String) (s : BuildState) :
    (generate_dot_diagram exec none content s).1 =
      .error (.keyError "EHIVE_ROOT_DIR") ∧
    (generate_dot_diagram exec none content s).2.spawned = s.spawned := by
  constructor
  · rfl
  · cases h : s.json_filename with
    | none => simp [generate_dot_diagram, ensure_json_file, h]
    | some p => simp [generate_dot_diagram, ensure_json_file, h]

/-! Claim C3. -/

/-- Claim C3, counterexample: when the external executable exits with status
2 after writing boom to its standard error, the raised CalledProcessError
carries the exit status and the captured standard output but no captured
standard-error content (its stderr field is none); the error text instead
passed through to the stderr stream of the build process, because the source
invokes check_output with stderr redirected to sys.stderr. -/
theorem C3_counterexample :
    (generate_dot_diagram
        (fun _ _ => { returncode := 2, stdout := "outtext", stderrText := "boom" })
        (some "/ehive") "X" initState).1 =
      .error (.calledProcessError 2 "outtext" none) ∧
    (generate_dot_diagram
        (fun _ _ => { returncode := 2, stdout := "outtext", stderrText := "boom" })
        (some "/ehive") "X" initState).2.stderrStream = "boom" :=
  ⟨rfl, rfl⟩

/-- Claim C3 (amended): if the external executable exits with non-zero
status, generate_dot_diagram raises a CalledProcessError carrying the exit
status and the captured standard output; the standard-error content of the
process is not captured into the failure but passes through to the stderr
stream of the build process, and the directive handler propagates the
failure without constructing a table node. -/
theorem generate_nonzero_exit_raises (rc : Int) (out errtxt root content : String)
    (s : BuildState) (lines : List String) (hrc : ¬ rc = 0) :
    ((generate_dot_diagram
        (fun _ _ => { returncode := rc, stdout := out, stderrText := errtxt })
        (some root) content s).1 = .error (.calledProcessError rc out none)) ∧
    ((generate_dot_diagram
        (fun _ _ => { returncode := rc, stdout := out, stderrText := errtxt })
        (some root) content s).2.stderrStream = s.stderrStream ++ errtxt) ∧
    ((HiveDiagramDirective.run
        (fun _ _ => { returncode := rc, stdout := out, stderrText := errtxt })
        (some root) lines s).1 = .error (.calledProcessError rc out none)) := by
  refine ⟨?_, ?_, ?_⟩
  · cases hj : s.json_filename <;> cases hq : s.pipeconfig_filename <;>
      simp [generate_dot_diagram, ensure_json_file, ensure_pipeconfig_file, hj, hq, hrc]
  · cases hj : s.json_filename <;> cases hq : s.pipeconfig_filename <;>
      simp [generate_dot_diagram, ensure_json_file, ensure_pipeconfig_file, hj, hq, hrc]
  · cases hj : s.json_filename <;> cases hq : s.pipeconfig_filename <;>
      simp [HiveDiagramDirective.run, generate_dot_diagram, ensure_json_file,
            ensure_pipeconfig_file, hj, hq, hrc]

/-- Claim C3, witness for the amended theorem at concrete inputs. -/
theorem C3_witness :
    ((generate_dot_diagram (fun _ _ => { returncode := 2, stdout := "o", stderrText := "e" })
        (some "/r") "X" initState).1 = .error (.calledProcessError 2 "o" none)) ∧
    ((generate_dot_diagram (fun _ _ => { returncode := 2, stdout := "o", stderrText := "e" })
        (some "/r") "X" initState).2.stderrStream = initState.stderrStream ++ "e") ∧
    ((HiveDiagramDirective.run (fun _ _ => { returncode := 2, stdout := "o", stderrText := "e" })
        (some "/r") ["X"] initState).1 = .error (.calledProcessError 2 "o" none)) :=
  generate_nonzero_exit_raises 2 "o" "e" "/r" "X" initState ["X"] (by decide)

/-! Claim C4. -/

/-- One generate_dot_diagram invocation: executor, environment, block content. -/
structure GenCall where
  exec : Executor
  env : Option String
  content : String

/-- Run a sequence of generate_dot_diagram calls, threading the state. -/
def runCalls (calls : List GenCall) (s : BuildState) : BuildState :=
  calls.foldl (fun t c => (generate_dot_diagram c.exec c.env c.content t).2) s

/-- Invariant tying each path global to the number of temp files ever created
for it: a slot is empty with zero creations, or filled with exactly one. -/
def SlotsCreated (s : BuildState) : Prop :=
  (s.json_filename = none ∧ s.json_files_created = 0 ∨
     s.json_filename ≠ none ∧ s.json_files_created = 1) ∧
  (s.pipeconfig_filename = none ∧ s.pipeconfig_files_created = 0 ∨
     s.pipeconfig_filename ≠ none ∧ s.pipeconfig_files_created = 1)

/-- Once json_filename is set, generate keeps it and creates no options file. -/
theorem generate_json_slot_kept (e : Executor) (env : Option String)
    (c : String) (s : BuildState) (p : String) (hj : s.json_filename = some p) :
    (generate_dot_diagram e env c s).2.json_filename = some p ∧
    (generate_dot_diagram e env c s).2.json_files_created = s.json_files_created := by
  cases env <;> cases hq : s.pipeconfig_filename <;>
    simp [generate_dot_diagram, ensure_json_file, ensure_pipeconfig_file, hj, hq]

/-- Once pipeconfig_filename is set, generate keeps it and creates no
wrapped-source file. -/
theorem generate_pipeconfig_slot_kept (e : Executor) (env : Option String)
    (c : String) (s : BuildState) (q : String)
    (hq : s.pipeconfig_filename = some q) :
    (generate_dot_diagram e env c s).2.pipeconfig_filename = some q ∧
    (generate_dot_diagram e env c s).2.pipeconfig_files_created =
      s.pipeconfig_files_created := by
  cases env <;> cases hj : s.json_filename <;>
    simp [generate_dot_diagram, ensure_json_file, ensure_pipeconfig_file, hj, hq]

/-- Each generate call preserves the slot/creation-count invariant. -/
theorem generate_preserves_slotsCreated (e : Executor) (env : Option String)
    (c : String) (s : BuildState) (h : SlotsCreated s) :
    SlotsCreated (generate_dot_diagram e env c s).2 := by
  obtain ⟨h1, h2⟩ := h
  constructor
  · rcases h1 with ⟨hj, hc⟩ | ⟨hj, hc⟩
    · cases env <;> cases hq : s.pipeconfig_filename <;>
        simp [generate_dot_diagram, ensure_json_file, ensure_pipeconfig_file, hj, hq, hc]
    · rcases Option.ne_none_iff_exists.mp hj with ⟨p, hp⟩
      have := generate_json_slot_kept e env c s p hp.symm
      exact Or.inr ⟨by simp [this.1], by rw [this.2, hc]⟩
  · rcases h2 with ⟨hq, hc⟩ | ⟨hq, hc⟩
    · cases env with
      | none =>
        cases hj : s.json_filename <;>
          simp [generate_dot_diagram, ensure_json_file, hj, hq, hc]
      | some root =>
        cases hj : s.json_filename <;>
          simp [generate_dot_diagram, ensure_json_file, ensure_pipeconfig_file, hj, hq, hc]
    · rcases Option.ne_none_iff_exists.mp hq with ⟨q, hq2⟩
      have := generate_pipeconfig_slot_kept e env c s q hq2.symm
      exact Or.inr ⟨by simp [this.1], by rw [this.2, hc]⟩

/-- The invariant holds along any call sequence from interpreter start. -/
theorem runCalls_slotsCreated (calls : List GenCall) (s : BuildState)
    (h : SlotsCreated s) : SlotsCreated (runCalls calls s) := by
  induction calls generalizing s with
  | nil => exact h
  | cons c rest ih =>
    exact ih (generate_dot_diagram c.exec c.env c.content s).2
      (generate_preserves_slotsCreated c.exec c.env c.content s h)

/-- Claim C4: once the options and wrapped-source temp paths are recorded, a
subsequent generate_dot_diagram call reuses both paths unchanged and creates
no new temp file; and along any sequence of calls from interpreter start, at
most one options temp file and at most one wrapped-source temp file are ever
created, however many diagram blocks are rendered. -/
theorem generate_reuses_temp_paths (e2 : Executor) (env2 : Option String)
    (c2 : String) (s : BuildState) (j q : String) (calls : List GenCall)
    (hj : s.json_filename = some j) (hq : s.pipeconfig_filename = some q) :
    ((generate_dot_diagram e2 env2 c2 s).2.json_filename = some j ∧
     (generate_dot_diagram e2 env2 c2 s).2.pipeconfig_filename = some q ∧
     (generate_dot_diagram e2 env2 c2 s).2.json_files_created =
       s.json_files_created ∧
     (generate_dot_diagram e2 env2 c2 s).2.pipeconfig_files_created =
       s.pipeconfig_files_created) ∧
    ((runCalls calls initState).json_files_created ≤ 1 ∧
     (runCalls calls initState).pipeconfig_files_created ≤ 1) := by
  have hkj := generate_json_slot_kept e2 env2 c2 s j hj
  have hkq := generate_pipeconfig_slot_kept e2 env2 c2 s q hq
  have hinv := runCalls_slotsCreated calls initState
    ⟨Or.inl ⟨rfl, rfl⟩, Or.inl ⟨rfl, rfl⟩⟩
  refine ⟨⟨hkj.1, hkq.1, hkj.2, hkq.2⟩, ?_, ?_⟩
  · rcases hinv.1 with ⟨_, hc⟩ | ⟨_, hc⟩ <;> omega
  · rcases hinv.2 with ⟨_, hc⟩ | ⟨_, hc⟩ <;> omega

/-- Claim C4, witness at a concrete state and call list. -/
theorem C4_witness :
    ((generate_dot_diagram okExec (some "/r") "Y" oneCallState).2.json_filename =
       some "_build/tmpj0" ∧
     (generate_dot_diagram okExec (some "/r") "Y" oneCallState).2.pipeconfig_filename =
       some "_build/tmpp1.pm" ∧
     (generate_dot_diagram okExec (some "/r") "Y" oneCallState).2.json_files_created =
       oneCallState.json_files_created ∧
     (generate_dot_diagram okExec (some "/r") "Y" oneCallState).2.pipeconfig_files_created =
       oneCallState.pipeconfig_files_created) ∧
    ((runCalls [{ exec := okExec, env := some "/r", content := "Y" }] initState).json_files_created ≤ 1 ∧
     (runCalls [{ exec := okExec, env := some "/r", content := "Y" }] initState).pipeconfig_files_created ≤ 1) :=
  generate_reuses_temp_paths okExec (some "/r") "Y" oneCallState
    "_build/tmpj0" "_build/tmpp1.pm"
    [{ exec := okExec, env := some "/r", content := "Y" }] (by rfl) (by rfl)

/-! Claim C5. -/

/-- Value following the first occurrence of a flag in an argument vector. -/
def argAfter (flag : String) : List String → Option String
  | x :: y :: rest => if x = flag then some y else argAfter flag (y :: rest)
  | _ => none

/-- Stub executor that echoes back the content of the file named by its
-pipeconfig argument. -/
def echoExec : Executor := fun cmd fs =>
  match argAfter "-pipeconfig" cmd with
  | some p =>
    match fsRead fs p with
    | some c => { returncode := 0, stdout := c, stderrText := "" }
    | none => { returncode := 1, stdout := "", stderrText := "missing pipeconfig file" }
  | none => { returncode := 1, stdout := "", stderrText := "missing pipeconfig flag" }

/-- In the spawned argument vector, the value after -pipeconfig is the
wrapped-source path (the executable path itself cannot equal the flag). -/
theorem argAfter_pipeconfig (root p : String) (rest : List String) :
    argAfter "-pipeconfig"
      (ospath_join (ospath_join root "scripts") "generate_graph.pl" ::
        "-pipeconfig" :: p :: rest) = some p := by
  simp [argAfter, graph_path_ne_flag root]

/-- The pipeconfig slot after ensure holds exactly the returned path. -/
theorem ensure_pipeconfig_slot (s : BuildState) :
    (ensure_pipeconfig_file s).2.pipeconfig_filename =
      some (ensure_pipeconfig_file s).1 := by
  cases hq : s.pipeconfig_filename <;> simp [ensure_pipeconfig_file, hq]

set_option maxRecDepth 10000 in
/-- Claim C5, counterexample: with the echoing stub executable, the returned
value is the rendered template followed by the newline appended by the print
statement on line 115, so it is not equal, as exact strings, to the rendered
template itself; here at the concrete input from the spec, with the package
name derived from the wrapped-source temp path. -/
theorem C5_counterexample :
    package_name_of "_build/tmpp1.pm" = "_build::tmpp1" ∧
    (generate_dot_diagram echoExec (some "/ehive")
        "\x7b -logic_name => \x27A\x27 \x7d" initState).1 =
      .ok (pipeconfig_template "_build::tmpp1" "\x7b -logic_name => \x27A\x27 \x7d" ++ "\n") ∧
    pipeconfig_template "_build::tmpp1" "\x7b -logic_name => \x27A\x27 \x7d" ++ "\n" ≠
      pipeconfig_template "_build::tmpp1" "\x7b -logic_name => \x27A\x27 \x7d" :=
  ⟨rfl, rfl, by decide⟩

/-- Claim C5 (amended): with the echoing stub executable, for every block
content and every state, generate_dot_diagram returns exactly the template
rendered with the derived package name and the block content, followed by
the single trailing newline appended by the print statement. -/
theorem generate_echo_returns_rendered (root content : String) (s : BuildState) :
    ∃ p, (generate_dot_diagram echoExec (some root) content s).2.pipeconfig_filename =
        some p ∧
      (generate_dot_diagram echoExec (some root) content s).1 =
        .ok (pipeconfig_template (package_name_of p) content ++ "\n") := by
  refine ⟨(ensure_pipeconfig_file (ensure_json_file s)).1, ?_, ?_⟩
  · cases hj : s.json_filename <;> cases hq : s.pipeconfig_filename <;>
      simp [generate_dot_diagram, ensure_json_file, ensure_pipeconfig_file, hj, hq]
  · cases hj : s.json_filename <;> cases hq : s.pipeconfig_filename <;>
      simp [generate_dot_diagram, ensure_json_file, ensure_pipeconfig_file, hj, hq,
            echoExec, argAfter_pipeconfig, fsRead_fsWrite_self]

/-! Claim C6. -/

set_option maxRecDepth 10000 in
/-- Claim C6, counterexample: a second call whose rendered text is shorter
than the file content left by the first call leaves the file holding exactly
the new rendered text — reopening with mode w on line 111 truncates, so no
stale trailing bytes of the longer earlier write remain. -/
theorem C6_counterexample :
    fsRead (generate_dot_diagram okExec (some "/ehive") "S"
        (generate_dot_diagram okExec (some "/ehive")
          "AAAAAAAAAAAAAAAAAAAAAAAAAAAAAAAAAAAAAAAA" initState).2).2.fs
        "_build/tmpp1.pm" =
      some (pipeconfig_template "_build::tmpp1" "S" ++ "\n") ∧
    (pipeconfig_template "_build::tmpp1" "S" ++ "\n").length <
      (pipeconfig_template "_build::tmpp1"
        "AAAAAAAAAAAAAAAAAAAAAAAAAAAAAAAAAAAAAAAA" ++ "\n").length :=
  ⟨rfl, by decide⟩

/-- Claim C6 (amended): on second and later calls the wrapped-source file is
reopened with mode w, which truncates; after the write the file holds exactly
the newly rendered template text plus the final newline, regardless of any
longer previous content, with no stale trailing bytes. -/
theorem generate_overwrite_truncates (e : Executor) (root content : String)
    (s : BuildState) (q : String) (hq : s.pipeconfig_filename = some q) :
    fsRead (generate_dot_diagram e (some root) content s).2.fs q =
      some (pipeconfig_template (package_name_of q) content ++ "\n") := by
  cases hj : s.json_filename <;>
    simp [generate_dot_diagram, ensure_json_file, ensure_pipeconfig_file, hj, hq,
          fsRead_fsWrite_self]

/-- Claim C6, witness for the amended theorem at a concrete state. -/
theorem C6_witness :
    fsRead (generate_dot_diagram okExec (some "/r") "S" oneCallState).2.fs
        "_build/tmpp1.pm" =
      some (pipeconfig_template (package_name_of "_build/tmpp1.pm") "S" ++ "\n") :=
  generate_overwrite_truncates okExec "/r" "S" oneCallState "_build/tmpp1.pm" (by rfl)

/-! Claim C7. -/

/-- Claim C7: whenever EHIVE_ROOT_DIR resolves, generate_dot_diagram spawns
exactly one subprocess, whose argument vector after the executable path is
exactly -pipeconfig wrapped-source-path, --format dot, -config_file
default-config-under-the-root, -config_file options-path, in this order. -/
theorem generate_spawn_args (e : Executor) (root content : String)
    (s : BuildState) :
    ∃ p j,
      (generate_dot_diagram e (some root) content s).2.pipeconfig_filename = some p ∧
      (generate_dot_diagram e (some root) content s).2.json_filename = some j ∧
      (generate_dot_diagram e (some root) content s).2.spawned =
        s.spawned ++
          [[ospath_join (ospath_join root "scripts") "generate_graph.pl",
            "-pipeconfig", p, "--format", "dot",
            "-config_file", root ++ "/" ++ "hive_config.json",
            "-config_file", j]] := by
  refine ⟨(ensure_pipeconfig_file (ensure_json_file s)).1,
          (ensure_json_file s).json_filename.getD "", ?_, ?_, ?_⟩ <;>
    cases hj : s.json_filename <;> cases hq : s.pipeconfig_filename <;>
      simp [generate_dot_diagram, ensure_json_file, ensure_pipeconfig_file, hj, hq]

/-! Claim C9. -/

/-- Claim C9: on a first-ever generate_dot_diagram call with EHIVE_ROOT_DIR
unset, the options temp file has already been created on disk and the
json_filename slot populated before the KeyError is raised, and no
subprocess was spawned; the failed call leaves the process state changed. -/
theorem generate_first_call_not_atomic (e : Executor) (content : String) :
    (generate_dot_diagram e none content initState).1 =
      .error (.keyError "EHIVE_ROOT_DIR") ∧
    (generate_dot_diagram e none content initState).2.json_filename =
      some (jsonTmpName 0) ∧
    fsExists (generate_dot_diagram e none content initState).2.fs
      (jsonTmpName 0) = true ∧
    (generate_dot_diagram e none content initState).2.spawned = [] ∧
    (generate_dot_diagram e none content initState).2 ≠ initState := by
  refine ⟨rfl, rfl, rfl, rfl, ?_⟩
  intro h
  have h2 : some (jsonTmpName 0) = (none : Option String) := by
    rw [show some (jsonTmpName 0) =
          (generate_dot_diagram e none content initState).2.json_filename from rfl, h]
    rfl
  exact Option.noConfusion h2

/-! Claim C8. -/

/-- Parsing the serialized payload plus the newline printed after it yields
exactly the display-options value. -/
theorem loads_display_config_json :
    loads (display_config_json ++ "\n") = some display_config := rfl

/-- Invariant: the recorded options path belongs to the json temp-name family
and the file at it still holds the serialized payload plus newline, while the
recorded pipeconfig path belongs to the pipeconfig temp-name family. -/
def OptionsFileInv (s : BuildState) : Prop :=
  (∀ p, s.json_filename = some p →
    (∃ n, p = jsonTmpName n) ∧
    fsRead s.fs p = some (display_config_json ++ "\n")) ∧
  (∀ q, s.pipeconfig_filename = some q → ∃ m, q = pipeconfigTmpName m)

/-- Step at lines 94-100 establishes and preserves the invariant. -/
theorem ensure_json_file_inv (s : BuildState) (h : OptionsFileInv s) :
    OptionsFileInv (ensure_json_file s) := by
  cases hj : s.json_filename with
  | none =>
    constructor
    · intro p hp
      simp only [ensure_json_file, hj, Option.some.injEq] at hp
      refine ⟨⟨s.tmpCounter, hp.symm⟩, ?_⟩
      simp [ensure_json_file, hj, ← hp, fsRead_fsWrite_self]
    · intro q hq
      simp only [ensure_json_file, hj] at hq
      exact h.2 q hq
  | some p0 =>
    have he : ensure_json_file s = s := by simp [ensure_json_file, hj]
    rw [he]
    exact h

/-- The pipeconfig step leaves the json slot unchanged. -/
theorem ensure_pipeconfig_json_unchanged (s : BuildState) :
    (ensure_pipeconfig_file s).2.json_filename = s.json_filename := by
  cases hq : s.pipeconfig_filename <;> simp [ensure_pipeconfig_file, hq]

/-- The pipeconfig step truncates the file at the returned path (a fresh
temp file is empty, and reopening with mode w empties the file). -/
theorem ensure_pipeconfig_fs (s : BuildState) :
    (ensure_pipeconfig_file s).2.fs =
      fsWrite s.fs (ensure_pipeconfig_file s).1 "" := by
  cases hq : s.pipeconfig_filename <;> simp [ensure_pipeconfig_file, hq]

/-- The path returned by the pipeconfig step stays in its name family. -/
theorem ensure_pipeconfig_name_family (s : BuildState)
    (h : ∀ q, s.pipeconfig_filename = some q → ∃ m, q = pipeconfigTmpName m) :
    ∃ m, (ensure_pipeconfig_file s).1 = pipeconfigTmpName m := by
  cases hq : s.pipeconfig_filename with
  | none => exact ⟨s.tmpCounter, by simp [ensure_pipeconfig_file, hq]⟩
  | some q =>
    rcases h q hq with ⟨m, hm⟩
    exact ⟨m, by simp [ensure_pipeconfig_file, hq, hm]⟩

/-- State shape of a generate call whose environment lookup succeeds. -/
theorem generate_some_shape (e : Executor) (root c : String) (s : BuildState) :
    (generate_dot_diagram e (some root) c s).2.json_filename =
        (ensure_json_file s).json_filename ∧
    (generate_dot_diagram e (some root) c s).2.pipeconfig_filename =
        some (ensure_pipeconfig_file (ensure_json_file s)).1 ∧
    (generate_dot_diagram e (some root) c s).2.fs =
      fsWrite (ensure_pipeconfig_file (ensure_json_file s)).2.fs
        (ensure_pipeconfig_file (ensure_json_file s)).1
        (pipeconfig_template
          (package_name_of (ensure_pipeconfig_file (ensure_json_file s)).1) c
          ++ "\n") :=
  ⟨ensure_pipeconfig_json_unchanged (ensure_json_file s),
   ensure_pipeconfig_slot (ensure_json_file s), rfl⟩

/-- Each generate call preserves the options-file invariant. -/
theorem generate_preserves_optionsFileInv (e : Executor) (env : Option String)
    (c : String) (s : BuildState) (h : OptionsFileInv s) :
    OptionsFileInv (generate_dot_diagram e env c s).2 := by
  have h1 := ensure_json_file_inv s h
  cases env with
  | none => exact h1
  | some root =>
    obtain ⟨hjf, hpf, hfs⟩ := generate_some_shape e root c s
    rcases ensure_pipeconfig_name_family (ensure_json_file s) h1.2 with ⟨m, hm⟩
    constructor
    · intro p hp
      rw [hjf] at hp
      rcases h1.1 p hp with ⟨⟨n, hn⟩, hread⟩
      have hne : ¬ p = (ensure_pipeconfig_file (ensure_json_file s)).1 := by
        rw [hn, hm]
        exact jsonTmpName_ne_pipeconfigTmpName n m
      refine ⟨⟨n, hn⟩, ?_⟩
      rw [hfs, fsRead_fsWrite_other _ _ _ _ hne, ensure_pipeconfig_fs,
          fsRead_fsWrite_other _ _ _ _ hne]
      exact hread
    · intro q hq
      rw [hpf] at hq
      have hqe : q = (ensure_pipeconfig_file (ensure_json_file s)).1 :=
        (Option.some.inj hq).symm
      exact ⟨m, hqe.trans hm⟩

/-- The options-file invariant holds along any call sequence. -/
theorem runCalls_optionsFileInv (calls : List GenCall) (s : BuildState)
    (h : OptionsFileInv s) : OptionsFileInv (runCalls calls s) := by
  induction calls generalizing s with
  | nil => exact h
  | cons c rest ih =>
    exact ih (generate_dot_diagram c.exec c.env c.content s).2
      (generate_preserves_optionsFileInv c.exec c.env c.content s h)

/-- Claim C8: after any number of generate calls from interpreter start, the
options temp file holds the serialized display-options payload plus the
printed newline, and that content deserializes as JSON to exactly the fixed
structure whose key Graph maps to the four flags Pad, DisplayStats,
DisplayDBIDs and DisplayDetails, each zero — identical however many diagrams
are rendered. -/
theorem options_file_json_constant (calls : List GenCall) (p : String)
    (hp : (runCalls calls initState).json_filename = some p) :
    fsRead (runCalls calls initState).fs p =
      some (display_config_json ++ "\n") ∧
    loads (display_config_json ++ "\n") = some display_config := by
  have h := runCalls_optionsFileInv calls initState
    ⟨by simp [initState], by simp [initState]⟩
  exact ⟨(h.1 p hp).2, loads_display_config_json⟩

/-- Claim C8, witness at a concrete call sequence. -/
theorem C8_witness :
    fsRead (runCalls [{ exec := okExec, env := some "/r", content := "X" }]
        initState).fs "_build/tmpj0" =
      some (display_config_json ++ "\n") ∧
    loads (display_config_json ++ "\n") = some display_config :=
  options_file_json_constant
    [{ exec := okExec, env := some "/r", content := "X" }] "_build/tmpj0" (by rfl)

/-! Claim C10. -/

/-- Claim C10: no operation resets a temp-file-path slot — generate keeps a
populated slot populated with the same path and cleanup leaves both slots
untouched; consequently a generate call made after cleanup has removed the
options file does not create a fresh options temp file (the creation count
is unchanged and the options path stays absent from disk) but reuses the
already-removed path. -/
theorem temp_path_slots_never_reset
    (e : Executor) (env : Option String) (c : String) (s : BuildState)
    (j q : String) (n m : Nat)
    (hj : s.json_filename = some j) (hq : s.pipeconfig_filename = some q)
    (hjn : j = jsonTmpName n) (hqm : q = pipeconfigTmpName m)
    (hgone : fsExists s.fs j = false) :
    ((generate_dot_diagram e env c s).2.json_filename = some j ∧
     (generate_dot_diagram e env c s).2.pipeconfig_filename = some q) ∧
    ((cleanup_tmp_files s).2.json_filename = some j ∧
     (cleanup_tmp_files s).2.pipeconfig_filename = some q) ∧
    ((generate_dot_diagram e env c s).2.json_files_created =
       s.json_files_created ∧
     fsExists (generate_dot_diagram e env c s).2.fs j = false) := by
  have hkj := generate_json_slot_kept e env c s j hj
  have hkq := generate_pipeconfig_slot_kept e env c s q hq
  have hcs := cleanup_preserves_slots s
  refine ⟨⟨hkj.1, hkq.1⟩, ⟨hcs.1.trans hj, hcs.2.trans hq⟩, hkj.2, ?_⟩
  cases env with
  | none =>
    simp only [fsExists] at hgone ⊢
    simp [generate_dot_diagram, ensure_json_file, hj]
    simpa [fsExists] using hgone
  | some root =>
    have hs1 : ensure_json_file s = s := by simp [ensure_json_file, hj]
    have hpc1 : (ensure_pipeconfig_file (ensure_json_file s)).1 = q := by
      rw [hs1]
      simp [ensure_pipeconfig_file, hq]
    have hfs := (generate_some_shape e root c s).2.2
    have hne : ¬ j = (ensure_pipeconfig_file (ensure_json_file s)).1 := by
      rw [hpc1, hjn, hqm]
      exact jsonTmpName_ne_pipeconfigTmpName n m
    simp only [fsExists] at hgone ⊢
    rw [hfs, fsRead_fsWrite_other _ _ _ _ hne, ensure_pipeconfig_fs,
        fsRead_fsWrite_other _ _ _ _ hne, hs1]
    exact hgone

/-- State after one generate call and one cleanup run, at which point both
path globals are still populated while both files are gone from disk. -/
def cleanedState : BuildState := (cleanup_tmp_files oneCallState).2

/-- Claim C10, witness at the concrete post-cleanup state. -/
theorem C10_witness :
    ((generate_dot_diagram okExec (some "/r") "Y" cleanedState).2.json_filename =
       some "_build/tmpj0" ∧
     (generate_dot_diagram okExec (some "/r") "Y" cleanedState).2.pipeconfig_filename =
       some "_build/tmpp1.pm") ∧
    ((cleanup_tmp_files cleanedState).2.json_filename = some "_build/tmpj0" ∧
     (cleanup_tmp_files cleanedState).2.pipeconfig_filename =
       some "_build/tmpp1.pm") ∧
    ((generate_dot_diagram okExec (some "/r") "Y" cleanedState).2.json_files_created =
       cleanedState.json_files_created ∧
     fsExists (generate_dot_diagram okExec (some "/r") "Y" cleanedState).2.fs
       "_build/tmpj0" = false) :=
  temp_path_slots_never_reset okExec (some "/r") "Y" cleanedState
    "_build/tmpj0" "_build/tmpp1.pm" 0 1 (by rfl) (by rfl) (by rfl) (by rfl) (by rfl)

end AnalysisDiagram
